import Mathlib

/-!
Formal model of `mmworkbench/core.py`: the multi-form text representation
(`Query` with its per-adjacent-form character index maps and the
`transform_index` / `transform_span` translation walk), the annotated span
construction (`QueryEntity.from_query`), and the entity conflict resolver
(`resolve_entity_conflicts` with `_is_subset` / `_is_superset` /
`_is_same_span` / `_is_overlapping`).

Python strings are modelled as `List Char`, indices as `Int`, confidences as
`ℚ`, raised `ValueError`s as an explicit error type via `Except`.
-/

/-- Inclusive span over character or token indices (`Span` namedtuple,
core.py line 20): a `start` and an `end`. -/
structure Span where
  start : Int
  «end» : Int
  deriving DecidableEq

/-- Entity payload (core.py line 454).  The conflict resolver compares
`entity.confidence` with `>=`, so the model carries the confidence as a
rational number (the spec's inputs are "confidence-bearing"); the other
fields are inert record data. -/
structure Entity where
  type : String
  role : Option String
  value : Option String
  display_text : Option String
  confidence : ℚ
  deriving DecidableEq

/-- Input record of `resolve_entity_conflicts` (a "facet" in the source's
docstring, core.py line 500).  The resolver is duck-typed: the only fields it
reads are `target.start`, `target.end` and `target.entity.confidence`
(core.py lines 539, 557-576), so the model exposes exactly those. -/
structure Facet where
  start : Int
  «end» : Int
  entity : Entity
  deriving DecidableEq

/-- `_is_subset` (core.py line 557): span containment by index comparison. -/
def _is_subset (target other : Facet) : Bool :=
  decide (target.start ≥ other.start) && decide (target.«end» ≤ other.«end»)

/-- `_is_superset` (core.py line 562). -/
def _is_superset (target other : Facet) : Bool :=
  decide (target.start ≤ other.start) && decide (target.«end» ≥ other.«end»)

/-- `_is_same_span` (core.py line 567): mutually subset and superset. -/
def _is_same_span (target other : Facet) : Bool :=
  _is_superset target other && _is_subset target other

/-- `_is_overlapping` (core.py line 571).  The source intersects
`range(start, end + 1)` index sets; that intersection is nonempty exactly
when `max` of the starts is at most `min` of the ends (see
`overlap_condition_iff` below), and the source additionally requires that
neither containment holds. -/
def _is_overlapping (target other : Facet) : Bool :=
  decide (max target.start other.start ≤ min target.«end» other.«end»)
    && !(_is_subset target other) && !(_is_superset target other)

/-- Inner `while j < len(filtered)` loop of `resolve_entity_conflicts`
(core.py lines 525-550), for a fixed `target = filtered[i]`, acting on the
part of the working list after position `i`.  Returns the Python
`include_target` flag together with the surviving part of the list after
position `i`:

* superset and not same span: `del filtered[j]; continue` — drop `other`,
  rescan at the same position;
* subset and not same span: `del filtered[i]; break` — the target itself is
  dropped, everything from `other` on survives untouched;
* same span or overlapping: keep the higher confidence, the target winning
  ties (`>=`), with the same two shapes of removal;
* otherwise `j += 1` — keep `other` and continue. -/
def _resolve_scan (target : Facet) : List Facet → Bool × List Facet
  | [] => (true, [])
  | other :: rest =>
    if _is_superset target other && !(_is_same_span target other) then
      _resolve_scan target rest
    else if _is_subset target other && !(_is_same_span target other) then
      (false, other :: rest)
    else if _is_same_span target other || _is_overlapping target other then
      if target.entity.confidence ≥ other.entity.confidence then
        _resolve_scan target rest
      else
        (false, other :: rest)
    else
      ((_resolve_scan target rest).1, other :: (_resolve_scan target rest).2)

/-- `resolve_entity_conflicts` (core.py line 500).  The outer
`while i < len(filtered)` loop: elements before the cursor are settled and
never touched again (both deletions happen at positions `>= i`), so the
working list splits into the settled result and the part from the cursor on.
If the target survives its inner scan (`include_target`) the cursor advances
past it; otherwise the target was deleted at position `i` and the cursor
stays, taking up the first survivor of the scan next. -/
def resolve_entity_conflicts : List Facet → List Facet
  | [] => []
  | target :: rest =>
    if (_resolve_scan target rest).1 then
      target :: resolve_entity_conflicts (_resolve_scan target rest).2
    else
      resolve_entity_conflicts (_resolve_scan target rest).2
termination_by l => l.length
decreasing_by
  all_goals
    have hlen : ∀ (t : Facet) (l : List Facet),
        (_resolve_scan t l).2.length ≤ l.length := by
      intro t l
      induction l with
      | nil => simp [_resolve_scan]
      | cons o r ih =>
        simp only [_resolve_scan]
        split
        · exact Nat.le_trans ih (Nat.le_succ _)
        · split
          · exact Nat.le_refl _
          · split
            · split
              · exact Nat.le_trans ih (Nat.le_succ _)
              · exact Nat.le_refl _
            · exact Nat.succ_le_succ ih
    simp only [List.length_cons]
    exact Nat.lt_succ_of_le (hlen _ _)

/-- `TEXT_FORM_RAW` (core.py line 12).  Text forms are plain integers in the
source, so the model keeps them as `Int` and checks membership in
`TEXT_FORMS` exactly where the source does. -/
def TEXT_FORM_RAW : Int := 0

/-- `TEXT_FORM_PROCESSED` (core.py line 13). -/
def TEXT_FORM_PROCESSED : Int := 1

/-- `TEXT_FORM_NORMALIZED` (core.py line 14). -/
def TEXT_FORM_NORMALIZED : Int := 2

/-- `TEXT_FORMS` (core.py line 15). -/
def TEXT_FORMS : List Int := [TEXT_FORM_RAW, TEXT_FORM_PROCESSED, TEXT_FORM_NORMALIZED]

/-- The distinct `ValueError`s raised by the translation code
(core.py lines 190, 204, 215, 219, 230), distinguished by message. -/
inductive QueryError
  | invalidTextForm
  | formCannotBeProcessed
  | formCannotBeUnprocessed
  | invalidIndex
  deriving DecidableEq

/-- Lookup in a stored index dictionary, modelled as an association list:
`mapping[index]` finds the value stored under the key, or nothing
(`KeyError`) when the key is absent. -/
def dictLookup : List (Int × Int) → Int → Option Int
  | [], _ => none
  | (k, v) :: rest, index => if index = k then some v else dictLookup rest index

/-- `Query` (core.py line 100).  `_texts` holds the raw and processed strings
together with the normalized text derived by joining the normalized tokens
with single spaces (line 127); `char_maps` is the dictionary keyed by
`(form, form)` pairs whose values are either `None` (a 1-1 mapping) or a
partial index-to-index dictionary.  The outer `Option` is key presence in
`char_maps`, the inner one is the `None`-versus-dict value, and a stored
dict is an association list (so that Python's truthiness of a dict — empty
means falsy — stays observable). -/
structure Query where
  text : List Char
  processed_text : List Char
  normalized_tokens : List (List Char)
  char_maps : Int × Int → Option (Option (List (Int × Int)))

/-- `Query.normalized_text` (core.py lines 127, 143-145): the normalized
tokens joined by single spaces. -/
def Query.normalized_text (q : Query) : List Char :=
  List.intercalate [' '] q.normalized_tokens

/-- `Query._process_index` (core.py line 202): one step upward.  Raises for
the `NORMALIZED` form; a missing `char_maps` key is identity; the stored
value goes through `mapping[index] if mapping else index` (line 213), so a
falsy stored value — `None` or an empty dict — is identity too, and only a
non-empty dict is consulted, raising `Invalid index` on a missing key. -/
def Query._process_index (q : Query) (index : Int) (form_in : Int) :
    Except QueryError Int :=
  if form_in = TEXT_FORM_NORMALIZED then .error .formCannotBeProcessed
  else
    match q.char_maps (form_in, form_in + 1) with
    | none => .ok index
    | some none => .ok index
    | some (some mapping) =>
      if mapping.isEmpty then .ok index
      else
        match dictLookup mapping index with
        | some i => .ok i
        | none => .error .invalidIndex

/-- `Query._unprocess_index` (core.py line 217): one step downward,
symmetric to `_process_index`, raising for the `RAW` form, with the same
`mapping[index] if mapping else index` truthiness at line 228. -/
def Query._unprocess_index (q : Query) (index : Int) (form_in : Int) :
    Except QueryError Int :=
  if form_in = TEXT_FORM_RAW then .error .formCannotBeUnprocessed
  else
    match q.char_maps (form_in, form_in - 1) with
    | none => .ok index
    | some none => .ok index
    | some (some mapping) =>
      if mapping.isEmpty then .ok index
      else
        match dictLookup mapping index with
        | some i => .ok i
        | none => .error .invalidIndex

/-- The `while form_in < form_out` loop of `transform_index`
(core.py lines 197-199), unrolled on the number of remaining steps: apply
`_process_index` at the current form and move the form up by one. -/
def Query.transform_index_up (q : Query) : Int → Int → Nat → Except QueryError Int
  | index, _, 0 => .ok index
  | index, form_in, n + 1 =>
    match q._process_index index form_in with
    | .error e => .error e
    | .ok index' => q.transform_index_up index' (form_in + 1) n

/-- The `while form_in > form_out` loop of `transform_index`
(core.py lines 193-195), unrolled on the number of remaining steps. -/
def Query.transform_index_down (q : Query) : Int → Int → Nat → Except QueryError Int
  | index, _, 0 => .ok index
  | index, form_in, n + 1 =>
    match q._unprocess_index index form_in with
    | .error e => .error e
    | .ok index' => q.transform_index_down index' (form_in - 1) n

/-- `Query.transform_index` (core.py line 178): validate both forms against
`TEXT_FORMS`, then walk one step at a time toward `form_out`.  The loop in
the source runs exactly `|form_in - form_out|` iterations, which is the step
count passed to the unrolled loops. -/
def Query.transform_index (q : Query) (index form_in form_out : Int) :
    Except QueryError Int :=
  if form_in ∈ TEXT_FORMS ∧ form_out ∈ TEXT_FORMS then
    if form_out < form_in then
      q.transform_index_down index form_in (form_in - form_out).toNat
    else
      q.transform_index_up index form_in (form_out - form_in).toNat
  else .error .invalidTextForm

/-- `Query.transform_span` (core.py line 162): translate the two endpoints
independently (start first, as the source evaluates its arguments) and
rebuild a `Span`, with no validation of the result. -/
def Query.transform_span (q : Query) (text_span : Span) (form_in form_out : Int) :
    Except QueryError Span :=
  match q.transform_index text_span.start form_in form_out with
  | .error e => .error e
  | .ok s =>
    match q.transform_index text_span.«end» form_in form_out with
    | .error e => .error e
    | .ok e2 => .ok ⟨s, e2⟩

/-- Whitespace test matching Python `str.split()` with no separator on the
ASCII whitespace characters (space, tab, newline, vertical tab, form feed,
carriage return). -/
def isPySpace (c : Char) : Bool :=
  c = ' ' || c = '\t' || c = '\n' || c = Char.ofNat 11 || c = Char.ofNat 12 || c = '\r'

/-- Accumulator worker for `pySplit`: the reversed current token is carried
along; whitespace finishes a token, nothing is emitted for empty runs. -/
def pySplitAux : List Char → List Char → List (List Char)
  | [], acc => if acc.isEmpty then [] else [acc.reverse]
  | c :: rest, acc =>
    if isPySpace c then
      if acc.isEmpty then pySplitAux rest []
      else acc.reverse :: pySplitAux rest []
    else pySplitAux rest (c :: acc)

/-- Python `s.split()`: split on runs of whitespace, discarding empty
pieces. -/
def pySplit (s : List Char) : List (List Char) :=
  pySplitAux s []

/-- Python slice `s[a:b]`: negative bounds count from the end, and both
bounds are clamped to the string. -/
def pySlice (s : List Char) (a b : Int) : List Char :=
  let n : Int := s.length
  let a' := if a < 0 then max 0 (n + a) else min a n
  let b' := if b < 0 then max 0 (n + b) else min b n
  (s.take b'.toNat).drop a'.toNat

/-- `get_token_span` (core.py line 362, nested in `QueryEntity.from_query`):
`start` counts the whitespace-delimited tokens of `full_text` before the
span, `end` is `start - 1` plus the token count of the sliced span text. -/
def get_token_span (full_text : List Char) (span : Span) : Span :=
  let span_text := pySlice full_text span.start (span.«end» + 1)
  let start : Int := (pySplit (pySlice full_text 0 span.start)).length
  ⟨start, start - 1 + (pySplit span_text).length⟩

/-- `QueryEntity` (core.py line 289): the three per-form text snippets,
character spans and token spans, plus the owned entity payload.  The triples
are ordered raw, processed, normalized, as the `TEXT_FORM_*` indices order
the source tuples. -/
structure QueryEntity where
  texts : List Char × List Char × List Char
  spans : Span × Span × Span
  token_spans : Span × Span × Span
  entity : Entity
  deriving DecidableEq

/-- Shared tail of `QueryEntity.from_query` (core.py lines 357-378): slice
each form's snippet from that form's text, then compute the three token
spans from the `full_text` tuple, which the source builds as
`(query.text, query.processed_text, query.text)` — the third component is
the raw text, exactly as written on line 360. -/
def QueryEntity.of_spans (query : Query) (entity : Entity)
    (raw_span proc_span norm_span : Span) : QueryEntity :=
  let texts := (pySlice query.text raw_span.start (raw_span.«end» + 1),
                pySlice query.processed_text proc_span.start (proc_span.«end» + 1),
                pySlice query.normalized_text norm_span.start (norm_span.«end» + 1))
  let spans := (raw_span, proc_span, norm_span)
  let full_text := (query.text, query.processed_text, query.text)
  let token_spans := (get_token_span full_text.1 spans.1,
                      get_token_span full_text.2.1 spans.2.1,
                      get_token_span full_text.2.2 spans.2.2)
  ⟨texts, spans, token_spans, entity⟩

/-- `QueryEntity.from_query` (core.py line 329).  A truthy `span` argument
selects the raw entry point regardless of `normalized_span` (`Span` is a
namedtuple, so every span is truthy); otherwise a truthy `normalized_span`
selects the normalized entry point; with neither the source hits an unbound
local, modelled as `none`.  Failures of `transform_span` propagate. -/
def QueryEntity.from_query (query : Query) (entity : Entity)
    (span : Option Span) (normalized_span : Option Span) :
    Option (Except QueryError QueryEntity) :=
  match span with
  | some s =>
    some (match query.transform_span s TEXT_FORM_RAW TEXT_FORM_PROCESSED with
      | .error e => .error e
      | .ok proc_span =>
        match query.transform_span s TEXT_FORM_RAW TEXT_FORM_NORMALIZED with
        | .error e => .error e
        | .ok norm_span => .ok (QueryEntity.of_spans query entity s proc_span norm_span))
  | none =>
    match normalized_span with
    | some ns =>
      some (match query.transform_span ns TEXT_FORM_NORMALIZED TEXT_FORM_PROCESSED with
        | .error e => .error e
        | .ok proc_span =>
          match query.transform_span ns TEXT_FORM_NORMALIZED TEXT_FORM_RAW with
          | .error e => .error e
          | .ok raw_span => .ok (QueryEntity.of_spans query entity raw_span proc_span ns))
    | none => none

/-- Concrete entity payloads for concrete checks. -/
def entA : Entity := ⟨"a", none, none, none, 1⟩

/-- Second concrete entity, same confidence as `entA`. -/
def entB : Entity := ⟨"b", none, none, none, 1⟩

/-- Facet with span `[0, 5]`, confidence 1 (the spec's equal-confidence
example, first element). -/
def facetA : Facet := ⟨0, 5, entA⟩

/-- Facet with span `[0, 5]`, confidence 1 (second element). -/
def facetB : Facet := ⟨0, 5, entB⟩

/-- Query with no maps at all: every translation step is identity. -/
def q_id : Query := ⟨[], [], [], fun _ => none⟩

/-- A partial index map containing only the entry `3 ↦ 5`. -/
def m35 : List (Int × Int) := [(3, 5)]

/-- Query whose raw-to-processed map is `m35` and nothing else. -/
def q_map : Query := ⟨[], [], [], fun p => if p = (0, 1) then some (some m35) else none⟩

/-- Query whose raw-to-processed map is stored but is the empty dict. -/
def q_empty : Query := ⟨[], [], [], fun p => if p = (0, 1) then some (some []) else none⟩

/-- An index map swapping indices 0 and 1 (order-reversing on `[0, 1]`). -/
def mswap : List (Int × Int) := [(0, 1), (1, 0)]

/-- Query whose raw-to-processed map is the order-reversing `mswap`. -/
def q_swap : Query := ⟨[], [], [], fun p => if p = (0, 1) then some (some mswap) else none⟩

/-- Processed-to-normalized index map of `q_tok`: raw/processed text `"ab"`
against normalized text `"a b"`, so character 0 maps to 0 and character 1
maps to 2. -/
def m_tok : List (Int × Int) := [(0, 0), (1, 2)]

/-- Query with raw and processed text `"ab"` and normalized tokens
`["a", "b"]` (normalized text `"a b"`), with `m_tok` as the
processed-to-normalized map. -/
def q_tok : Query :=
  ⟨['a', 'b'], ['a', 'b'], [['a'], ['b']],
   fun p => if p = (1, 2) then some (some m_tok) else none⟩

/-- The query entity produced by `QueryEntity.from_query q_tok entA` on the
raw span `[0, 1]`: all three token spans come out `[0, 0]` because the
`full_text` tuple of core.py line 360 uses the raw text in the normalized
slot. -/
def qe_tok : QueryEntity :=
  ⟨(['a', 'b'], ['a', 'b'], ['a', ' ', 'b']),
   (⟨0, 1⟩, ⟨0, 1⟩, ⟨0, 2⟩),
   (⟨0, 0⟩, ⟨0, 0⟩, ⟨0, 0⟩),
   entA⟩

/-- The per-adjacent-pair maps of a query are exactly mutually inverse
(each either absent or `None`, i.e. identity, or a dictionary whose stored
companion is its exact inverse), stated on the effective step functions:
a successful upward step is undone by the stored downward step at the next
form, and symmetrically. -/
def Query.maps_1to1 (q : Query) : Prop :=
  (∀ a i j : Int, (a = 0 ∨ a = 1) →
    q._process_index i a = .ok j → q._unprocess_index j (a + 1) = .ok i) ∧
  (∀ a i j : Int, (a = 1 ∨ a = 2) →
    q._unprocess_index i a = .ok j → q._process_index j (a - 1) = .ok i)

/-- Conflict-freedom of an ordered pair of facets, with the source's own
predicates: not the same span, no containment in either direction, and not
overlapping. -/
def Compat (t o : Facet) : Prop :=
  _is_same_span t o = false ∧ _is_subset t o = false ∧
    _is_superset t o = false ∧ _is_overlapping t o = false

/-- The arithmetic condition in `_is_overlapping` says exactly that the two
closed index ranges intersected by the source share at least one index. -/
theorem overlap_condition_iff (t o : Facet) :
    (max t.start o.start ≤ min t.«end» o.«end») ↔
      ∃ k : Int, (t.start ≤ k ∧ k ≤ t.«end») ∧ (o.start ≤ k ∧ k ≤ o.«end») := by
  constructor
  · intro h
    exact ⟨max t.start o.start,
      ⟨le_max_left _ _, le_trans h (min_le_left _ _)⟩,
      ⟨le_max_right _ _, le_trans h (min_le_right _ _)⟩⟩
  · rintro ⟨k, ⟨h1, h2⟩, ⟨h3, h4⟩⟩
    exact le_trans (max_le h1 h3) (le_min h2 h4)

/-- The inner scan only deletes elements: its surviving list is a sublist of
its input, in order. -/
theorem resolve_scan_sublist (t : Facet) :
    ∀ l : List Facet, (_resolve_scan t l).2.Sublist l := by
  intro l
  induction l with
  | nil => simp [_resolve_scan]
  | cons o r ih =>
    simp only [_resolve_scan]
    split
    · exact ih.trans (List.sublist_cons_self o r)
    · split
      · exact List.Sublist.refl _
      · split
        · split
          · exact ih.trans (List.sublist_cons_self o r)
          · exact List.Sublist.refl _
        · exact List.Sublist.cons₂ o ih

/-- If the target survives its full inner scan, every survivor of the scan
is conflict-free with it: each was let past only through the final
`j += 1` branch, whose guards refute all four conflict predicates. -/
theorem resolve_scan_compat (t : Facet) :
    ∀ l : List Facet, (_resolve_scan t l).1 = true →
      ∀ x ∈ (_resolve_scan t l).2, Compat t x := by
  intro l
  induction l with
  | nil => intro _ x hx; simp [_resolve_scan] at hx
  | cons o r ih =>
    simp only [_resolve_scan]
    split
    · exact ih
    · split
      · intro h; simp at h
      · split
        · split
          · exact ih
          · intro h; simp at h
        · rename_i h1 h2 h3
          intro hinc x hx
          rcases List.mem_cons.mp hx with rfl | hx'
          · have hsame : _is_same_span t x = false := by
              cases hs : _is_same_span t x
              · rfl
              · exact absurd (by simp [hs]) h3
            have hover : _is_overlapping t x = false := by
              cases hs : _is_overlapping t x
              · rfl
              · exact absurd (by simp [hs]) h3
            have hsub : _is_subset t x = false := by
              cases hs : _is_subset t x
              · rfl
              · exact absurd (by simp [hs, hsame]) h2
            have hsup : _is_superset t x = false := by
              cases hs : _is_superset t x
              · rfl
              · exact absurd (by simp [hs, hsame]) h1
            exact ⟨hsame, hsub, hsup, hover⟩
          · exact ih hinc x hx'

/-- Unfolding equation of `resolve_entity_conflicts` on the empty list. -/
theorem resolve_nil : resolve_entity_conflicts [] = [] := by
  simp [resolve_entity_conflicts]

/-- Unfolding equation of `resolve_entity_conflicts` on a nonempty list. -/
theorem resolve_cons (t : Facet) (rest : List Facet) :
    resolve_entity_conflicts (t :: rest) =
      if (_resolve_scan t rest).1 then
        t :: resolve_entity_conflicts (_resolve_scan t rest).2
      else
        resolve_entity_conflicts (_resolve_scan t rest).2 := by
  simp [resolve_entity_conflicts]

/-- Worker for `resolve_sublist`, by strong induction on the list length. -/
theorem resolve_sublist_aux :
    ∀ (n : Nat) (l : List Facet), l.length = n →
      (resolve_entity_conflicts l).Sublist l := by
  intro n
  induction n using Nat.strong_induction_on with
  | _ n ih =>
    intro l hn
    cases l with
    | nil => rw [resolve_nil]
    | cons t rest =>
      subst hn
      have h2 := resolve_scan_sublist t rest
      have hlt : (_resolve_scan t rest).2.length < (t :: rest).length := by
        have := h2.length_le
        simp only [List.length_cons]
        omega
      rw [resolve_cons]
      split
      · exact List.Sublist.cons₂ t ((ih _ hlt _ rfl).trans h2)
      · exact List.Sublist.cons t ((ih _ hlt _ rfl).trans h2)

/-- The resolver's output is a sublist of its input: survivors keep their
relative input order. -/
theorem resolve_sublist (l : List Facet) :
    (resolve_entity_conflicts l).Sublist l :=
  resolve_sublist_aux l.length l rfl

/-- Worker for `resolve_pairwise`, by strong induction on the list length. -/
theorem resolve_pairwise_aux :
    ∀ (n : Nat) (l : List Facet), l.length = n →
      (resolve_entity_conflicts l).Pairwise Compat := by
  intro n
  induction n using Nat.strong_induction_on with
  | _ n ih =>
    intro l hn
    cases l with
    | nil => rw [resolve_nil]; exact List.Pairwise.nil
    | cons t rest =>
      subst hn
      have hlt : (_resolve_scan t rest).2.length < (t :: rest).length := by
        have := (resolve_scan_sublist t rest).length_le
        simp only [List.length_cons]
        omega
      rw [resolve_cons]
      split
      · rename_i hinc
        refine List.Pairwise.cons ?_ (ih _ hlt _ rfl)
        intro x hx
        exact resolve_scan_compat t rest hinc x
          ((resolve_sublist _).subset hx)
      · exact ih _ hlt _ rfl

/-- Any two distinct survivors of the resolver are conflict-free. -/
theorem resolve_pairwise (l : List Facet) :
    (resolve_entity_conflicts l).Pairwise Compat :=
  resolve_pairwise_aux l.length l rfl

/-- Claim C1: for every input sequence of annotated spans, the output of
`resolve_entity_conflicts` contains no remaining pairwise conflict — no two
survivors have the same span, neither contains the other, and none overlap
(all in the sense of the source's own predicates) — and the survivors keep
their relative input order. -/
theorem claim_c1_no_remaining_conflicts (l : List Facet) :
    (resolve_entity_conflicts l).Sublist l ∧
      (resolve_entity_conflicts l).Pairwise Compat :=
  ⟨resolve_sublist l, resolve_pairwise l⟩

/-- Claim C2: at any comparison step of `resolve_entity_conflicts` where the
target's span is identical to or overlapping the later element's span, the
element with the strictly higher confidence survives the step; on an exact
tie the target (the earlier element) is kept and the other discarded:
the scan continues without the other element when
`target.entity.confidence >= other.entity.confidence`, and otherwise the
target is deleted and everything from the other element on is kept. -/
theorem claim_c2_overlap_confidence_tiebreak (t o : Facet) (rest : List Facet)
    (h : _is_same_span t o = true ∨ _is_overlapping t o = true) :
    _resolve_scan t (o :: rest) =
      if t.entity.confidence ≥ o.entity.confidence then _resolve_scan t rest
      else (false, o :: rest) := by
  rcases h with hs | ho
  · have h1 : (_is_superset t o && !(_is_same_span t o)) = false := by simp [hs]
    have h2 : (_is_subset t o && !(_is_same_span t o)) = false := by simp [hs]
    have h3 : (_is_same_span t o || _is_overlapping t o) = true := by simp [hs]
    simp [_resolve_scan, h1, h2, h3]
  · have ho' := ho
    simp only [_is_overlapping, Bool.and_eq_true, Bool.not_eq_true'] at ho'
    have h1 : (_is_superset t o && !(_is_same_span t o)) = false := by
      simp [ho'.2]
    have h2 : (_is_subset t o && !(_is_same_span t o)) = false := by
      simp [ho'.1.2]
    have h3 : (_is_same_span t o || _is_overlapping t o) = true := by simp [ho]
    simp [_resolve_scan, h1, h2, h3]

/-- Witness for claim C2, at the spec's own example: two facets with the
identical span `[0, 5]` and equal confidence; the step keeps the earlier one
and discards the other. -/
theorem claim_c2_witness : _resolve_scan facetA [facetB] = (true, []) := by
  rw [claim_c2_overlap_confidence_tiebreak facetA facetB [] (Or.inl (by decide))]
  rw [if_pos (by norm_num [facetA, facetB, entA, entB])]
  rfl

/-- Claim C5: the resolver has no failure modes.  In the model it is a total
function on all input lists (its recursion was proved terminating, each
removal strictly shrinking the scanned part), it accepts the empty sequence,
and the result is always a filtered subsequence of the input, never longer
than it. -/
theorem claim_c5_resolver_total :
    (∀ l : List Facet, (resolve_entity_conflicts l).Sublist l ∧
      (resolve_entity_conflicts l).length ≤ l.length) ∧
    resolve_entity_conflicts [] = [] :=
  ⟨fun l => ⟨resolve_sublist l, (resolve_sublist l).length_le⟩, resolve_nil⟩

/-- Valid forms are exactly 0, 1, 2. -/
theorem mem_TEXT_FORMS {f : Int} (h : f ∈ TEXT_FORMS) : f = 0 ∨ f = 1 ∨ f = 2 := by
  simpa [TEXT_FORMS, TEXT_FORM_RAW, TEXT_FORM_PROCESSED, TEXT_FORM_NORMALIZED] using h

/-- Unfolding of the zero-hop translation. -/
theorem transform_index_00 (q : Query) (i : Int) : q.transform_index i 0 0 = .ok i := rfl

/-- Unfolding of the zero-hop translation at `PROCESSED`. -/
theorem transform_index_11 (q : Query) (i : Int) : q.transform_index i 1 1 = .ok i := rfl

/-- Unfolding of the zero-hop translation at `NORMALIZED`. -/
theorem transform_index_22 (q : Query) (i : Int) : q.transform_index i 2 2 = .ok i := rfl

/-- Unfolding of the one-hop upward translation from `RAW`. -/
theorem transform_index_01 (q : Query) (i : Int) :
    q.transform_index i 0 1 =
      match q._process_index i 0 with
      | .error e => .error e
      | .ok v => .ok v := rfl

/-- Unfolding of the one-hop upward translation from `PROCESSED`. -/
theorem transform_index_12 (q : Query) (i : Int) :
    q.transform_index i 1 2 =
      match q._process_index i 1 with
      | .error e => .error e
      | .ok v => .ok v := rfl

/-- Unfolding of the two-hop upward translation. -/
theorem transform_index_02 (q : Query) (i : Int) :
    q.transform_index i 0 2 =
      match q._process_index i 0 with
      | .error e => .error e
      | .ok i1 =>
        match q._process_index i1 1 with
        | .error e => .error e
        | .ok i2 => .ok i2 := rfl

/-- Unfolding of the one-hop downward translation from `PROCESSED`. -/
theorem transform_index_10 (q : Query) (i : Int) :
    q.transform_index i 1 0 =
      match q._unprocess_index i 1 with
      | .error e => .error e
      | .ok v => .ok v := rfl

/-- Unfolding of the one-hop downward translation from `NORMALIZED`. -/
theorem transform_index_21 (q : Query) (i : Int) :
    q.transform_index i 2 1 =
      match q._unprocess_index i 2 with
      | .error e => .error e
      | .ok v => .ok v := rfl

/-- Unfolding of the two-hop downward translation. -/
theorem transform_index_20 (q : Query) (i : Int) :
    q.transform_index i 2 0 =
      match q._unprocess_index i 2 with
      | .error e => .error e
      | .ok i1 =>
        match q._unprocess_index i1 1 with
        | .error e => .error e
        | .ok i2 => .ok i2 := rfl

/-- Counterexample to claim C3 as stated: the `(0, 1)` map of `q_empty` is
stored and has no entry for index 7 (it is the empty dict), yet the step
silently falls back to identity instead of failing with the invalid-index
error — `mapping[index] if mapping else index` at core.py line 213 takes
the falsy branch for an empty stored dict. -/
theorem claim_c3_counterexample :
    q_empty.char_maps (0, 0 + 1) = some (some []) ∧
    dictLookup [] 7 = none ∧
    q_empty._process_index 7 0 = .ok 7 ∧
    q_empty._process_index 7 0 ≠ .error .invalidIndex := by
  refine ⟨rfl, rfl, rfl, fun hcon => ?_⟩
  rw [show q_empty._process_index 7 0 = .ok 7 from rfl] at hcon
  exact Except.noConfusion hcon

/-- Claim C3 (amended): a single translation step treats an absent map as
identity, treats a stored empty map as identity as well (the dict
truthiness of core.py lines 213/228), and for a stored non-empty map
lacking the requested index fails with the invalid-index error, never
silently as identity — for the upward step and the downward step alike. -/
theorem claim_c3_step_identity_or_invalid (q : Query) (index form_in : Int) :
    (form_in ≠ TEXT_FORM_NORMALIZED →
      (q.char_maps (form_in, form_in + 1) = none →
        q._process_index index form_in = .ok index) ∧
      (q.char_maps (form_in, form_in + 1) = some (some []) →
        q._process_index index form_in = .ok index) ∧
      (∀ m, q.char_maps (form_in, form_in + 1) = some (some m) → m ≠ [] →
        dictLookup m index = none →
        q._process_index index form_in = .error .invalidIndex)) ∧
    (form_in ≠ TEXT_FORM_RAW →
      (q.char_maps (form_in, form_in - 1) = none →
        q._unprocess_index index form_in = .ok index) ∧
      (q.char_maps (form_in, form_in - 1) = some (some []) →
        q._unprocess_index index form_in = .ok index) ∧
      (∀ m, q.char_maps (form_in, form_in - 1) = some (some m) → m ≠ [] →
        dictLookup m index = none →
        q._unprocess_index index form_in = .error .invalidIndex)) := by
  constructor
  · intro hf
    refine ⟨?_, ?_, ?_⟩
    · intro hmap
      simp [Query._process_index, hf, hmap]
    · intro hmap
      simp [Query._process_index, hf, hmap]
    · intro m hmap hme hidx
      rcases m with _ | ⟨kv, rest⟩
      · exact absurd rfl hme
      · simp [Query._process_index, hf, hmap, hidx]
  · intro hf
    refine ⟨?_, ?_, ?_⟩
    · intro hmap
      simp [Query._unprocess_index, hf, hmap]
    · intro hmap
      simp [Query._unprocess_index, hf, hmap]
    · intro m hmap hme hidx
      rcases m with _ | ⟨kv, rest⟩
      · exact absurd rfl hme
      · simp [Query._unprocess_index, hf, hmap, hidx]

/-- Witness for claim C3 (amended): with no `(0, 1)` map, index 7 processes
to itself; with the stored empty `(0, 1)` map, it also processes to itself;
with the stored non-empty `(0, 1)` map `{3 ↦ 5}`, which lacks index 7,
processing raises the invalid-index error. -/
theorem claim_c3_witness :
    q_id._process_index 7 0 = .ok 7 ∧
      q_empty._process_index 7 0 = .ok 7 ∧
      q_map._process_index 7 0 = .error .invalidIndex :=
  ⟨((claim_c3_step_identity_or_invalid q_id 7 0).1 (by decide)).1 rfl,
   ((claim_c3_step_identity_or_invalid q_empty 7 0).1 (by decide)).2.1 rfl,
   ((claim_c3_step_identity_or_invalid q_map 7 0).1 (by decide)).2.2 m35 rfl
     (by decide) rfl⟩

/-- Claim C6: translating a form to itself is the identity for every valid
form, and the `RAW` to `NORMALIZED` translation is exactly the composition
of the `RAW` to `PROCESSED` hop followed by the `PROCESSED` to `NORMALIZED`
hop, a failure of either hop failing the whole translation with no partial
result. -/
theorem claim_c6_identity_and_chained (q : Query) (index : Int) :
    (∀ f : Int, f ∈ TEXT_FORMS → q.transform_index index f f = .ok index) ∧
    (q.transform_index index TEXT_FORM_RAW TEXT_FORM_NORMALIZED =
      match q.transform_index index TEXT_FORM_RAW TEXT_FORM_PROCESSED with
      | .error e => .error e
      | .ok j => q.transform_index j TEXT_FORM_PROCESSED TEXT_FORM_NORMALIZED) := by
  constructor
  · intro f hf
    rcases mem_TEXT_FORMS hf with rfl | rfl | rfl <;> rfl
  · show q.transform_index index 0 2 =
      match q.transform_index index 0 1 with
      | .error e => .error e
      | .ok j => q.transform_index j 1 2
    rw [transform_index_02, transform_index_01]
    cases hp1 : q._process_index index 0 with
    | error e => rfl
    | ok i1 => exact (transform_index_12 q i1).symm

/-- Witness for claim C6: with the mapless query, translating index 5 from
`RAW` to `RAW` is the identity. -/
theorem claim_c6_witness : q_id.transform_index 5 TEXT_FORM_RAW TEXT_FORM_RAW = .ok 5 :=
  (claim_c6_identity_and_chained q_id 5).1 TEXT_FORM_RAW (by decide)

/-- Below `NORMALIZED`, an upward step either succeeds or fails with the
invalid-index error; its form-guard branch is unreachable. -/
theorem process_index_shape (q : Query) (i a : Int) (ha : a = 0 ∨ a = 1) :
    (∃ v, q._process_index i a = .ok v) ∨
      q._process_index i a = .error .invalidIndex := by
  have hne : a ≠ TEXT_FORM_NORMALIZED := by
    rcases ha with rfl | rfl <;> decide
  rcases hm : q.char_maps (a, a + 1) with _ | _ | mapping
  · exact Or.inl ⟨i, by simp [Query._process_index, hne, hm]⟩
  · exact Or.inl ⟨i, by simp [Query._process_index, hne, hm]⟩
  · by_cases hmp : mapping.isEmpty = true
    · exact Or.inl ⟨i, by simp [Query._process_index, hne, hm, hmp]⟩
    · rcases hmi : dictLookup mapping i with _ | v
      · exact Or.inr (by simp [Query._process_index, hne, hm, hmp, hmi])
      · exact Or.inl ⟨v, by simp [Query._process_index, hne, hm, hmp, hmi]⟩

/-- Above `RAW`, a downward step either succeeds or fails with the
invalid-index error; its form-guard branch is unreachable. -/
theorem unprocess_index_shape (q : Query) (i a : Int) (ha : a = 1 ∨ a = 2) :
    (∃ v, q._unprocess_index i a = .ok v) ∨
      q._unprocess_index i a = .error .invalidIndex := by
  have hne : a ≠ TEXT_FORM_RAW := by
    rcases ha with rfl | rfl <;> decide
  rcases hm : q.char_maps (a, a - 1) with _ | _ | mapping
  · exact Or.inl ⟨i, by simp [Query._unprocess_index, hne, hm]⟩
  · exact Or.inl ⟨i, by simp [Query._unprocess_index, hne, hm]⟩
  · by_cases hmp : mapping.isEmpty = true
    · exact Or.inl ⟨i, by simp [Query._unprocess_index, hne, hm, hmp]⟩
    · rcases hmi : dictLookup mapping i with _ | v
      · exact Or.inr (by simp [Query._unprocess_index, hne, hm, hmp, hmi])
      · exact Or.inl ⟨v, by simp [Query._unprocess_index, hne, hm, hmp, hmi]⟩

/-- The upward walk keeps every visited form strictly below `NORMALIZED`, so
it can only succeed or fail with the invalid-index error. -/
theorem transform_index_up_shape (q : Query) :
    ∀ (n : Nat) (a i : Int), 0 ≤ a → a + n ≤ 2 →
      (∃ v, q.transform_index_up i a n = .ok v) ∨
        q.transform_index_up i a n = .error .invalidIndex := by
  intro n
  induction n with
  | zero => intro a i _ _; exact Or.inl ⟨i, rfl⟩
  | succ n ih =>
    intro a i h0 h2
    have ha : a = 0 ∨ a = 1 := by omega
    rcases process_index_shape q i a ha with ⟨v, hv⟩ | hv
    · simp only [Query.transform_index_up, hv]
      exact ih (a + 1) v (by omega) (by omega)
    · exact Or.inr (by simp only [Query.transform_index_up, hv])

/-- The downward walk keeps every visited form strictly above `RAW`, so it
can only succeed or fail with the invalid-index error. -/
theorem transform_index_down_shape (q : Query) :
    ∀ (n : Nat) (a i : Int), (n : Int) ≤ a → a ≤ 2 →
      (∃ v, q.transform_index_down i a n = .ok v) ∨
        q.transform_index_down i a n = .error .invalidIndex := by
  intro n
  induction n with
  | zero => intro a i _ _; exact Or.inl ⟨i, rfl⟩
  | succ n ih =>
    intro a i h0 h2
    have ha : a = 1 ∨ a = 2 := by omega
    rcases unprocess_index_shape q i a ha with ⟨v, hv⟩ | hv
    · simp only [Query.transform_index_down, hv]
      exact ih (a - 1) v (by omega) (by omega)
    · exact Or.inr (by simp only [Query.transform_index_down, hv])

/-- Claim C9: when both form arguments are within the three-value
enumeration, `transform_index` can never surface the form-guard errors of
the step helpers — `_process_index` is never reached at `NORMALIZED` and
`_unprocess_index` is never reached at `RAW`. -/
theorem claim_c9_step_errors_unreachable (q : Query) (index f1 f2 : Int)
    (h1 : f1 ∈ TEXT_FORMS) (h2 : f2 ∈ TEXT_FORMS) :
    q.transform_index index f1 f2 ≠ .error .formCannotBeProcessed ∧
      q.transform_index index f1 f2 ≠ .error .formCannotBeUnprocessed := by
  have hb1 := mem_TEXT_FORMS h1
  have hb2 := mem_TEXT_FORMS h2
  have hshape : (∃ v, q.transform_index index f1 f2 = .ok v) ∨
      q.transform_index index f1 f2 = .error .invalidIndex := by
    unfold Query.transform_index
    rw [if_pos ⟨h1, h2⟩]
    split
    · rename_i hlt
      exact transform_index_down_shape q _ f1 index (by omega) (by omega)
    · rename_i hge
      exact transform_index_up_shape q _ f1 index (by omega) (by omega)
  rcases hshape with ⟨v, hv⟩ | hv <;> rw [hv] <;>
    exact ⟨fun hc => by simp at hc, fun hc => by simp at hc⟩

/-- Witness for claim C9, at a query whose raw-to-processed map lacks the
requested index (the translation fails, but with the invalid-index error,
not a form error). -/
theorem claim_c9_witness :
    q_map.transform_index 7 TEXT_FORM_RAW TEXT_FORM_NORMALIZED ≠ .error .formCannotBeProcessed ∧
      q_map.transform_index 7 TEXT_FORM_RAW TEXT_FORM_NORMALIZED ≠ .error .formCannotBeUnprocessed :=
  claim_c9_step_errors_unreachable q_map 7 TEXT_FORM_RAW TEXT_FORM_NORMALIZED
    (by decide) (by decide)

/-- Claim C7: when every stored map is 1:1 — each direction of each adjacent
pair either identity or a dictionary whose stored companion is its exact
inverse (`Query.maps_1to1`) — a successful translation followed by the
reverse translation returns the original index, for every pair of valid
forms. -/
theorem claim_c7_round_trip (q : Query) (h1to1 : q.maps_1to1) (f1 f2 : Int)
    (hf1 : f1 ∈ TEXT_FORMS) (hf2 : f2 ∈ TEXT_FORMS) (idx j : Int)
    (h : q.transform_index idx f1 f2 = .ok j) :
    q.transform_index j f2 f1 = .ok idx := by
  rcases mem_TEXT_FORMS hf1 with rfl | rfl | rfl <;>
    rcases mem_TEXT_FORMS hf2 with rfl | rfl | rfl
  · rw [transform_index_00] at h
    injection h with h'
    subst h'
    exact transform_index_00 q idx
  · rw [transform_index_01] at h
    cases hp : q._process_index idx 0 with
    | error e => rw [hp] at h; simp at h
    | ok v =>
      rw [hp] at h
      injection h with h'
      subst h'
      have hu : q._unprocess_index v 1 = .ok idx := by
        simpa using h1to1.1 0 idx v (Or.inl rfl) hp
      rw [transform_index_10, hu]
  · rw [transform_index_02] at h
    cases hp1 : q._process_index idx 0 with
    | error e => rw [hp1] at h; simp at h
    | ok i1 =>
      rw [hp1] at h
      have h2 : (match q._process_index i1 1 with
        | Except.error e => Except.error e
        | Except.ok i2 => Except.ok i2) = Except.ok j := h
      cases hp2 : q._process_index i1 1 with
      | error e => rw [hp2] at h2; simp at h2
      | ok i2 =>
        rw [hp2] at h2
        injection h2 with h'
        subst h'
        have hu2 : q._unprocess_index i2 2 = .ok i1 := by
          simpa using h1to1.1 1 i1 i2 (Or.inr rfl) hp2
        have hu1 : q._unprocess_index i1 1 = .ok idx := by
          simpa using h1to1.1 0 idx i1 (Or.inl rfl) hp1
        rw [transform_index_20, hu2]
        simp [hu1]
  · rw [transform_index_10] at h
    cases hu : q._unprocess_index idx 1 with
    | error e => rw [hu] at h; simp at h
    | ok v =>
      rw [hu] at h
      injection h with h'
      subst h'
      have hp : q._process_index v 0 = .ok idx := by
        simpa using h1to1.2 1 idx v (Or.inl rfl) hu
      rw [transform_index_01, hp]
  · rw [transform_index_11] at h
    injection h with h'
    subst h'
    exact transform_index_11 q idx
  · rw [transform_index_12] at h
    cases hp : q._process_index idx 1 with
    | error e => rw [hp] at h; simp at h
    | ok v =>
      rw [hp] at h
      injection h with h'
      subst h'
      have hu : q._unprocess_index v 2 = .ok idx := by
        simpa using h1to1.1 1 idx v (Or.inr rfl) hp
      rw [transform_index_21, hu]
  · rw [transform_index_20] at h
    cases hu1 : q._unprocess_index idx 2 with
    | error e => rw [hu1] at h; simp at h
    | ok i1 =>
      rw [hu1] at h
      have h2 : (match q._unprocess_index i1 1 with
        | Except.error e => Except.error e
        | Except.ok i2 => Except.ok i2) = Except.ok j := h
      cases hu2 : q._unprocess_index i1 1 with
      | error e => rw [hu2] at h2; simp at h2
      | ok i2 =>
        rw [hu2] at h2
        injection h2 with h'
        subst h'
        have hp1 : q._process_index i2 0 = .ok i1 := by
          have := h1to1.2 1 i1 i2 (Or.inl rfl) hu2
          norm_num at this
          exact this
        have hp2 : q._process_index i1 1 = .ok idx := by
          have := h1to1.2 2 idx i1 (Or.inr rfl) hu1
          norm_num at this
          exact this
        rw [transform_index_02, hp1]
        simp [hp2]
  · rw [transform_index_21] at h
    cases hu : q._unprocess_index idx 2 with
    | error e => rw [hu] at h; simp at h
    | ok v =>
      rw [hu] at h
      injection h with h'
      subst h'
      have hp : q._process_index v 1 = .ok idx := by
        have := h1to1.2 2 idx v (Or.inr rfl) hu
        norm_num at this
        exact this
      rw [transform_index_12, hp]
  · rw [transform_index_22] at h
    injection h with h'
    subst h'
    exact transform_index_22 q idx

/-- Witness for claim C7: the mapless query has exactly inverse (identity)
maps, and the `RAW` to `NORMALIZED` round trip of index 9 returns 9. -/
theorem claim_c7_witness : q_id.transform_index 9 TEXT_FORM_NORMALIZED TEXT_FORM_RAW = .ok 9 := by
  have h1to1 : q_id.maps_1to1 := by
    constructor
    · intro a i j ha hp
      rcases ha with rfl | rfl
      · have hp' : (Except.ok i : Except QueryError Int) = .ok j := hp
        injection hp' with h'
        subst h'
        rfl
      · have hp' : (Except.ok i : Except QueryError Int) = .ok j := hp
        injection hp' with h'
        subst h'
        rfl
    · intro a i j ha hu
      rcases ha with rfl | rfl
      · have hu' : (Except.ok i : Except QueryError Int) = .ok j := hu
        injection hu' with h'
        subst h'
        rfl
      · have hu' : (Except.ok i : Except QueryError Int) = .ok j := hu
        injection hu' with h'
        subst h'
        rfl
  exact claim_c7_round_trip q_id h1to1 TEXT_FORM_RAW TEXT_FORM_NORMALIZED
    (by decide) (by decide) 9 9 rfl

/-- Claim C8: `transform_span` translates the two endpoints independently
through `transform_index` and rebuilds the span from the two results with no
ordering or overlap re-validation; in particular, with an order-reversing
map the span `[0, 1]` translates to the inverted span `[1, 0]` and is
returned as-is. -/
theorem claim_c8_transform_span_independent :
    (∀ (q : Query) (s : Span) (f1 f2 a b : Int),
      q.transform_index s.start f1 f2 = .ok a →
      q.transform_index s.«end» f1 f2 = .ok b →
      q.transform_span s f1 f2 = .ok ⟨a, b⟩) ∧
    q_swap.transform_span ⟨0, 1⟩ TEXT_FORM_RAW TEXT_FORM_PROCESSED = .ok ⟨1, 0⟩ := by
  constructor
  · intro q s f1 f2 a b ha hb
    unfold Query.transform_span
    rw [ha, hb]
  · rfl

/-- Witness for claim C8, applying the general endpoint-independence part at
the order-reversing query: the translated span comes back with
`end < start`, untouched. -/
theorem claim_c8_witness : q_swap.transform_span ⟨0, 1⟩ TEXT_FORM_RAW TEXT_FORM_PROCESSED = .ok ⟨1, 0⟩ :=
  claim_c8_transform_span_independent.1 q_swap ⟨0, 1⟩ TEXT_FORM_RAW TEXT_FORM_PROCESSED 1 0 rfl rfl

/-- Claim C4 is refuted by the code: `from_query` builds its `full_text`
tuple as `(query.text, query.processed_text, query.text)` (core.py line
360), so the normalized-form token span is computed against the raw text.
On `q_tok` (raw text `"ab"`, normalized text `"a b"`, entity span `[0, 1]`
raw, hence `[0, 2]` normalized) the code yields normalized token span
`[0, 0]`, while the claimed computation against the normalized form's own
full text yields `[0, 1]`. -/
theorem claim_c4_token_span_wrong_full_text :
    QueryEntity.from_query q_tok entA (some ⟨0, 1⟩) none = some (.ok qe_tok) ∧
    qe_tok.spans.2.2 = ⟨0, 2⟩ ∧
    qe_tok.token_spans.2.2 = ⟨0, 0⟩ ∧
    get_token_span q_tok.normalized_text qe_tok.spans.2.2 = ⟨0, 1⟩ ∧
    qe_tok.token_spans.2.2 ≠ get_token_span q_tok.normalized_text qe_tok.spans.2.2 := by
  refine ⟨rfl, rfl, rfl, rfl, ?_⟩
  decide
